import Mathlib

/-!
Verification of the Device Session Synchronization & Webhook Ingestion
Pipeline of the `wapi` repository.

The TypeScript source is shallowly embedded: JSON payloads become the
inductive `Json`, JavaScript truthiness / `||` / optional chaining become
explicit functions, the Prisma-backed record store becomes lists of
records, and each route handler becomes a pure function from its inputs
(remote response, request body, store) to its HTTP outcome and updated
store.
-/

set_option maxHeartbeats 1000000

/-- A JSON value as delivered by `JSON.parse` / a fastify request body.
`none` at use sites models JavaScript `undefined` (an absent field). -/
inductive Json where
  | null
  | bool (b : Bool)
  | num (n : Int)
  | str (s : String)
  | arr (elems : List Json)
  | obj (fields : List (String × Json))
deriving Repr, Inhabited

mutual

def decEqJson : (a b : Json) → Decidable (a = b)
  | .null, .null => isTrue rfl
  | .bool x, .bool y =>
    if h : x = y then isTrue (by rw [h]) else isFalse (by intro e; cases e; exact h rfl)
  | .num x, .num y =>
    if h : x = y then isTrue (by rw [h]) else isFalse (by intro e; cases e; exact h rfl)
  | .str x, .str y =>
    if h : x = y then isTrue (by rw [h]) else isFalse (by intro e; cases e; exact h rfl)
  | .arr x, .arr y =>
    match decEqJsonList x y with
    | isTrue h => isTrue (by rw [h])
    | isFalse h => isFalse (by intro e; cases e; exact h rfl)
  | .obj x, .obj y =>
    match decEqJsonFields x y with
    | isTrue h => isTrue (by rw [h])
    | isFalse h => isFalse (by intro e; cases e; exact h rfl)
  | .null, .bool _ => isFalse (fun h => Json.noConfusion h)
  | .null, .num _ => isFalse (fun h => Json.noConfusion h)
  | .null, .str _ => isFalse (fun h => Json.noConfusion h)
  | .null, .arr _ => isFalse (fun h => Json.noConfusion h)
  | .null, .obj _ => isFalse (fun h => Json.noConfusion h)
  | .bool _, .null => isFalse (fun h => Json.noConfusion h)
  | .bool _, .num _ => isFalse (fun h => Json.noConfusion h)
  | .bool _, .str _ => isFalse (fun h => Json.noConfusion h)
  | .bool _, .arr _ => isFalse (fun h => Json.noConfusion h)
  | .bool _, .obj _ => isFalse (fun h => Json.noConfusion h)
  | .num _, .null => isFalse (fun h => Json.noConfusion h)
  | .num _, .bool _ => isFalse (fun h => Json.noConfusion h)
  | .num _, .str _ => isFalse (fun h => Json.noConfusion h)
  | .num _, .arr _ => isFalse (fun h => Json.noConfusion h)
  | .num _, .obj _ => isFalse (fun h => Json.noConfusion h)
  | .str _, .null => isFalse (fun h => Json.noConfusion h)
  | .str _, .bool _ => isFalse (fun h => Json.noConfusion h)
  | .str _, .num _ => isFalse (fun h => Json.noConfusion h)
  | .str _, .arr _ => isFalse (fun h => Json.noConfusion h)
  | .str _, .obj _ => isFalse (fun h => Json.noConfusion h)
  | .arr _, .null => isFalse (fun h => Json.noConfusion h)
  | .arr _, .bool _ => isFalse (fun h => Json.noConfusion h)
  | .arr _, .num _ => isFalse (fun h => Json.noConfusion h)
  | .arr _, .str _ => isFalse (fun h => Json.noConfusion h)
  | .arr _, .obj _ => isFalse (fun h => Json.noConfusion h)
  | .obj _, .null => isFalse (fun h => Json.noConfusion h)
  | .obj _, .bool _ => isFalse (fun h => Json.noConfusion h)
  | .obj _, .num _ => isFalse (fun h => Json.noConfusion h)
  | .obj _, .str _ => isFalse (fun h => Json.noConfusion h)
  | .obj _, .arr _ => isFalse (fun h => Json.noConfusion h)

def decEqJsonList : (a b : List Json) → Decidable (a = b)
  | [], [] => isTrue rfl
  | [], _ :: _ => isFalse (fun h => List.noConfusion h)
  | _ :: _, [] => isFalse (fun h => List.noConfusion h)
  | a :: as, b :: bs =>
    match decEqJson a b with
    | isFalse h => isFalse (by intro e; cases e; exact h rfl)
    | isTrue h1 =>
      match decEqJsonList as bs with
      | isTrue h2 => isTrue (by rw [h1, h2])
      | isFalse h2 => isFalse (by intro e; cases e; exact h2 rfl)

def decEqJsonFields : (a b : List (String × Json)) → Decidable (a = b)
  | [], [] => isTrue rfl
  | [], _ :: _ => isFalse (fun h => List.noConfusion h)
  | _ :: _, [] => isFalse (fun h => List.noConfusion h)
  | (k1, v1) :: as, (k2, v2) :: bs =>
    if hk : k1 = k2 then
      match decEqJson v1 v2 with
      | isFalse h => isFalse (by intro e; cases e; exact h rfl)
      | isTrue h1 =>
        match decEqJsonFields as bs with
        | isTrue h2 => isTrue (by rw [hk, h1, h2])
        | isFalse h2 => isFalse (by intro e; cases e; exact h2 rfl)
    else isFalse (by intro e; cases e; exact hk rfl)

end

instance : DecidableEq Json := decEqJson

/-- JavaScript truthiness of a value (`undefined` is handled at
`Option Json` level by `optTruthy`). -/
def Json.truthy : Json → Bool
  | .null => false
  | .bool b => b
  | .num n => n != 0
  | .str s => s != ""
  | .arr _ => true
  | .obj _ => true

/-- Property access `v.k`: defined on objects, `undefined` (`none`)
on everything else.  (Access on `null` throws in JS; callers model the
throw explicitly where it can occur.) -/
def Json.get? : Json → String → Option Json
  | .obj fields, k => (fields.find? (fun f => f.1 == k)).map Prod.snd
  | _, _ => none

/-- Truthiness of a possibly-`undefined` value. -/
def optTruthy (o : Option Json) : Bool :=
  match o with
  | some v => v.truthy
  | none => false

/-- Optional chaining `o?.k`. -/
def Json.getOpt (o : Option Json) (k : String) : Option Json :=
  match o with
  | some v => v.get? k
  | none => none

/-- JavaScript `a || b` where `a` may be `undefined` and `b` is a
definite value (the last element of an `||` chain). -/
def jsOr (a : Option Json) (b : Json) : Json :=
  match a with
  | some v => if v.truthy then v else b
  | none => b

/-- JavaScript `String(v)` conversion (`Array.prototype.toString` joins
element conversions with `,`, rendering `null` elements as empty). -/
def jsString : Json → String
  | .null => "null"
  | .bool b => if b then "true" else "false"
  | .num n => toString n
  | .str s => s
  | .arr xs => String.intercalate "," (xs.attach.map (fun p =>
      match p with
      | ⟨.null, _⟩ => ""
      | ⟨v, hv⟩ => jsString v))
  | .obj _ => "[object Object]"
decreasing_by
  simp_wf
  have := List.sizeOf_lt_of_mem hv
  omega

/-- Whether `pat` occurs at the start of `l`. -/
def startsWithList : List Char → List Char → Bool
  | [], _ => true
  | _ :: _, [] => false
  | a :: as, b :: bs => a == b && startsWithList as bs

/-- Whether `pat` occurs somewhere inside `l`. -/
def hasSubList (pat : List Char) : List Char → Bool
  | [] => startsWithList pat []
  | l@(_ :: rest) => startsWithList pat l || hasSubList pat rest

/-- JavaScript `s.includes(pat)`. -/
def strIncludes (s pat : String) : Bool :=
  hasSubList pat.toList s.toList

/-- First match group of the JavaScript regex `/(\d+)@/` applied to `s`:
the maximal digit run immediately preceding the first `@` that is
preceded by at least one digit. -/
def regexNumBeforeAt (s : String) : Option String :=
  go [] s.toList
where
  go (rev : List Char) : List Char → Option String
    | [] => none
    | c :: rest =>
      if c == '@' && (match rev with | d :: _ => d.isDigit | [] => false) then
        some (String.mk ((rev.takeWhile Char.isDigit).reverse))
      else go (c :: rev) rest

/-! ## Payload Normalizer: `saveMessage` (src/lib/devicesService.ts, lines 157-195) -/

/-- Source-object selection at the top of `saveMessage`:
`messageData._data`, else `messageData.message._data`, else
`messageData.message`, else `messageData` itself, each guard using
JavaScript truthiness exactly as the `if`/`else if` chain does. -/
def selectMessageSource (md : Json) : Json :=
  if md.truthy && optTruthy (md.get? "_data") then
    (md.get? "_data").getD .null
  else if md.truthy && optTruthy (md.get? "message")
      && optTruthy (Json.getOpt (md.get? "message") "_data") then
    (Json.getOpt (md.get? "message") "_data").getD .null
  else if md.truthy && optTruthy (md.get? "message") then
    (md.get? "message").getD .null
  else md

/-- The canonical Message row written by `prisma.messages.create`.
Field values keep their JavaScript dynamic type (`Json`). -/
structure MessageRecord where
  uuid : String
  deviceKey : String
  messageId : Json
  read : Json
  noTujuan : Json
  text : Json
  isGroup : Json
  secure : Json
  timestamp : Json
  from_ : Json
  fromMe : Json
  to_ : Json
  type : Json
deriving Repr, DecidableEq

/-- `saveMessage(deviceKey, messageData)`: selects the source object and
extracts every canonical field with the `||` fallback chains of the
source.  Returns `none` exactly when the selected source is JavaScript
`null`, where the source's `message.id` access would throw a
`TypeError`. -/
def saveMessageRecord (deviceKey uuid : String) (messageData : Json) : Option MessageRecord :=
  let message := selectMessageSource messageData
  if message = .null then none
  else some {
      uuid := uuid
      deviceKey := deviceKey
      messageId := jsOr (Json.getOpt (message.get? "id") "_serialized") (jsOr (message.get? "id") (.str ""))
      read := jsOr (message.get? "ack") (.num 0)
      noTujuan := jsOr (Json.getOpt (message.get? "to") "user") (jsOr (message.get? "to") .null)
      text := jsOr (message.get? "body") (jsOr (message.get? "text") (.str ""))
      isGroup := jsOr (message.get? "isGroup") (.bool false)
      secure := jsOr (message.get? "isSentCagPollCreation") (.bool false)
      timestamp := jsOr (message.get? "t") (jsOr (message.get? "timestamp") (.num 0))
      from_ := jsOr (Json.getOpt (message.get? "from") "user") (jsOr (message.get? "from") .null)
      fromMe := jsOr (message.get? "fromMe") (.bool false)
      to_ := jsOr (Json.getOpt (message.get? "to") "user") (jsOr (message.get? "to") .null)
      type := jsOr (message.get? "type") (.str "")
    }

/-- Source selection as worded by the specification: "prefer a `._data`
sub-object if present, else `.message._data`, else `.message`, else the
payload itself" (first-present-wins precedence list). -/
def specSelectSource (p : Json) : Json :=
  if optTruthy (p.get? "_data") then (p.get? "_data").getD .null
  else if optTruthy (Json.getOpt (p.get? "message") "_data") then
    (Json.getOpt (p.get? "message") "_data").getD .null
  else if optTruthy (p.get? "message") then (p.get? "message").getD .null
  else p

/-- First-truthy-wins extraction list as worded by the specification
("`id._serialized` → `id` → empty string", etc.). -/
def specFirstTruthy : List (Option Json) → Json → Json
  | [], dflt => dflt
  | c :: cs, dflt => if optTruthy c then c.getD .null else specFirstTruthy cs dflt

/-! ## Devices and the record store -/

/-- A row of the `devices` table (fields used by the pipeline). -/
structure Device where
  uuid : String
  key : String
  sessionId : String
  number : String
  status : String
  userId : String
deriving Repr, DecidableEq

/-- `updateDeviceStatus(sessionId, status)`: `prisma.devices.update` on
the unique `sessionId` key.  When no row matches, Prisma throws and every
caller catches, leaving the store unchanged; the map is the identity in
that case. -/
def updateDeviceStatus (sid status : String) (devs : List Device) : List Device :=
  devs.map (fun d => if d.sessionId == sid then { d with status := status } else d)

/-- A row of the `contacts` table: the non-identity fields written by
both branches of `saveContact`. -/
structure ContactFields where
  deviceKey : String
  contactName : Json
  isBusiness : Json
  isGroup : Json
  isUser : Json
  name : Json
  number : Json
  serialized : Json
  shortName : Json
  businessProfile : Json
  description : Json
  email : Json
  website : Json
  address : Json
  latitude : Json
  longitude : Json
  categories : Json
deriving Repr, DecidableEq

/-- A `contacts` row: identity (`uuid`, `contactId`) plus fields. -/
structure ContactRecord where
  uuid : String
  contactId : String
  fields : ContactFields
deriving Repr, DecidableEq

/-- The whole Prisma-backed record store. -/
structure DB where
  devices : List Device
  messages : List MessageRecord
  contacts : List ContactRecord
deriving Repr, DecidableEq

/-! ## Payload Normalizer: `saveContact` / `saveContacts`
(src/lib/devicesService.ts, lines 219-345) -/

/-- Contact-number extraction in `saveContact`:
`number || phoneNumber || phone || id?.user || null`, then, when that is
falsy and `id` is a truthy string, the `/(\d+)@/` regex fallback. -/
def contactNumberOf (cd : Json) : Json :=
  let n0 := jsOr (cd.get? "number") (jsOr (cd.get? "phoneNumber")
    (jsOr (cd.get? "phone") (jsOr (Json.getOpt (cd.get? "id") "user") .null)))
  if !n0.truthy then
    match cd.get? "id" with
    | some (.str s) =>
      if s ≠ "" then
        match regexNumBeforeAt s with
        | some digits => .str digits
        | none => n0
      else n0
    | _ => n0
  else n0

/-- The `website` column: array-valued business-profile website lists are
mapped to `site` or `site?.url`, filtered for truthiness, joined with
`", "` (empty join falling back to `null`); a string passes through; any
other shape falls back through `businessProfile?.website || website ||
null`. -/
def websiteOf (cd : Json) : Json :=
  match Json.getOpt (cd.get? "businessProfile") "website" with
  | some (.arr sites) =>
    let kept := ((sites.map (fun site =>
        match site with
        | .str s => some (Json.str s)
        | .null => none
        | v => v.get? "url")).filterMap id).filter Json.truthy
    let joined := String.intercalate ", " (kept.map jsString)
    if joined = "" then .null else .str joined
  | some (.str s) => .str s
  | w => jsOr w (jsOr (cd.get? "website") .null)

/-- The `categories` column: an array is stored as-is, anything else
falls back through `businessProfile?.categories || categories || null`. -/
def categoriesOf (cd : Json) : Json :=
  match Json.getOpt (cd.get? "businessProfile") "categories" with
  | some (.arr cs) => .arr cs
  | w => jsOr w (jsOr (cd.get? "categories") .null)

/-- The non-identity columns written identically by the update and the
create branch of `saveContact`. -/
def contactFieldsOf (deviceKey : String) (cd : Json) : ContactFields :=
  { deviceKey := deviceKey
    contactName := jsOr (cd.get? "name") (jsOr (cd.get? "contactName") (jsOr (cd.get? "pushname") .null))
    isBusiness := jsOr (cd.get? "isBusiness") (.bool false)
    isGroup := jsOr (cd.get? "isGroup") (.bool false)
    isUser := jsOr (cd.get? "isUser") (.bool true)
    name := jsOr (cd.get? "name") (jsOr (cd.get? "pushname") .null)
    number := contactNumberOf cd
    serialized := jsOr (Json.getOpt (cd.get? "id") "_serialized") (jsOr (cd.get? "id") .null)
    shortName := jsOr (cd.get? "shortName") (jsOr (cd.get? "shortname") .null)
    businessProfile := jsOr (cd.get? "businessProfile") .null
    description := jsOr (Json.getOpt (cd.get? "businessProfile") "description") (jsOr (cd.get? "description") .null)
    email := jsOr (Json.getOpt (cd.get? "businessProfile") "email") (jsOr (cd.get? "email") .null)
    website := websiteOf cd
    address := jsOr (Json.getOpt (cd.get? "businessProfile") "address") (jsOr (cd.get? "address") .null)
    latitude := jsOr (Json.getOpt (cd.get? "businessProfile") "latitude") (jsOr (cd.get? "lat") .null)
    longitude := jsOr (Json.getOpt (cd.get? "businessProfile") "longitude") (jsOr (cd.get? "lng") .null)
    categories := categoriesOf cd }

/-- Contact identity resolution:
`id?._serialized || id || contactId || number || fallback` (the fallback
is the fresh uuid inside `saveContact` and `''` in the `saveContacts`
filter). -/
def resolveContactId (cd : Json) (fallback : Json) : Json :=
  jsOr (Json.getOpt (cd.get? "id") "_serialized")
    (jsOr (cd.get? "id") (jsOr (cd.get? "contactId") (jsOr (cd.get? "number") fallback)))

/-- `saveContact(deviceKey, contactData)` over the contact store: resolve
the id (stringified when not a string), then update the existing row in
place (identity kept) or insert a new row. -/
def saveContactStore (deviceKey uuid : String) (cd : Json) (store : List ContactRecord) :
    List ContactRecord :=
  let cid := jsString (resolveContactId cd (.str uuid))
  match store.find? (fun r => r.contactId == cid) with
  | some _ => store.map (fun r =>
      if r.contactId == cid then { r with fields := contactFieldsOf deviceKey cd } else r)
  | none => store ++ [⟨uuid, cid, contactFieldsOf deviceKey cd⟩]

/-- `saveContacts(deviceKey, contactsData)`: per contact, resolve the
identity with `''` fallback and persist only when it contains `@c.us`;
`gen i` supplies the uuid generated by the i-th `saveContact` call. -/
def saveContactsStore (deviceKey : String) (gen : Nat → String) :
    Nat → List Json → List ContactRecord → List ContactRecord
  | _, [], store => store
  | i, c :: cs, store =>
    if strIncludes (jsString (resolveContactId c (.str ""))) "@c.us" then
      saveContactsStore deviceKey gen (i + 1) cs (saveContactStore deviceKey (gen i) c store)
    else
      saveContactsStore deviceKey gen i cs store

/-! ## Webhook Ingestor: `POST /whatsapp/webhook`
(src/lib/fastify/app.ts, lines 100-273) -/

/-- The six dataType values of the status allow-list. -/
def statusDataTypes : List String :=
  ["qr", "authenticated", "ready", "connecting", "connected", "disconnected"]

/-- The device-status-update block (lines 129-195): when `sessionId` and
`dataType` are truthy and `dataType` is in the allow-list, the switch
maps it to the identical status string and `updateDeviceStatus` runs;
every other shape (including a non-string truthy `sessionId`, whose
Prisma lookup throws into the surrounding `catch`) leaves the device
store unchanged. -/
def webhookStatusStep (body : Json) (devs : List Device) : List Device :=
  let sid := body.get? "sessionId"
  let dt := body.get? "dataType"
  if optTruthy sid && optTruthy dt then
    match sid, dt with
    | some (.str s), some (.str t) =>
      if t ∈ statusDataTypes then updateDeviceStatus s t devs else devs
    | _, _ => devs
  else devs

/-- Whether the `switch (dataType)` block (lines 198-214) throws: the
`device_linked` / `device_unlinked` arms dereference `data.device`, a
TypeError when `data` is absent or `null`.  This statement sits outside
every `try`, so the throw escapes to fastify's error handler. -/
def webhookThrows (body : Json) : Bool :=
  (body.get? "dataType" == some (.str "device_linked")
    || body.get? "dataType" == some (.str "device_unlinked"))
  && (body.get? "data" == none || body.get? "data" == some .null)

/-- Message-data discovery (lines 219-242): `outgoingData.message`, else
`message`, else `data.message`, else `data` (when `outgoingData` is
falsy), else the body itself when it is a non-empty object that looks
message-shaped. -/
def webhookMessageData (body : Json) : Option Json :=
  let og := body.get? "outgoingData"
  if optTruthy (Json.getOpt og "message") then Json.getOpt og "message"
  else if optTruthy (body.get? "message") then body.get? "message"
  else if optTruthy (Json.getOpt (body.get? "data") "message") then
    Json.getOpt (body.get? "data") "message"
  else if optTruthy (body.get? "data") && !optTruthy og then body.get? "data"
  else
    match body with
    | .obj (_ :: _) =>
      if body.truthy
          && (optTruthy (body.get? "_data") || optTruthy (body.get? "body")
            || (optTruthy (body.get? "id") && optTruthy (body.get? "from")
              && optTruthy (body.get? "to"))) then
        some body
      else none
    | _ => none

/-- Outcome of one webhook delivery: the `200` acknowledgment body's
dynamic parts, the `401` rejection, or a `500` from an uncaught throw
routed through `app.setErrorHandler`. -/
inductive WebhookResult where
  | ok (receivedType : Option Json) (sessionId : Json)
  | unauthorized
  | serverError
deriving Repr, DecidableEq

/-- The whole `POST /whatsapp/webhook` handler.  `secret` is
`WHATSAPP_WEBHOOK_AUTH`, `apiKey` the `x-api-key` header, `uuid` the
uuid generated for a saved message.  Order matters: the status update
runs (and persists) before the switch that can throw; the message save
runs only when no throw occurred. -/
def webhookHandler (secret : String) (apiKey : Option String) (body : Json) (uuid : String)
    (db : DB) : WebhookResult × DB :=
  if apiKey ≠ some secret then (.unauthorized, db)
  else
    let db1 := { db with devices := webhookStatusStep body db.devices }
    if webhookThrows body then (.serverError, db1)
    else
      let db2 :=
        match webhookMessageData body, body.get? "sessionId" with
        | some md, some (.str s) =>
          if s ≠ "" then
            match db1.devices.find? (fun d => d.sessionId == s) with
            | some d =>
              match saveMessageRecord d.key uuid md with
              | some r => { db1 with messages := db1.messages ++ [r] }
              | none => db1
            | none => db1
          else db1
        | _, _ => db1
      (.ok (body.get? "dataType") (jsOr (body.get? "sessionId") .null), db2)

/-! ## Relay Gateway (src/lib/fastify/routes/sessions.ts) -/

/-- Body relayed to the caller: the parsed provider body, or the
`{raw: text}` fallback when `JSON.parse(text)` threw. -/
def relayData (text : String) (parsed : Option Json) : Json :=
  match parsed with
  | some d => d
  | none => .obj [("raw", .str text)]

/-- Status/body pair relayed by the generic relay handlers
(`status`, `qr`, `restart`, `terminate`, `terminateInactive`,
`terminateAll`, `sendMessage`): the provider's status with the parsed
or raw-fallback body. -/
def relayResponse (remoteStatus : Nat) (text : String) (parsed : Option Json) : Nat × Json :=
  (remoteStatus, relayData text parsed)

/-- Device-creation side effect of `GET /session/start/:sessionId`
(lines 179-206): on `status === 200 && data.success === true` and a
truthy authenticated `userId`, `createDevice(sessionId, userId, "",
"connecting")` runs; the unique-`sessionId` constraint makes the insert
throw when a row exists, and any creation failure (modelled by
`writeOk = false`) is swallowed. -/
def startSessionDevices (sessionId userId key uuid : String) (remoteStatus : Nat)
    (data : Json) (writeOk : Bool) (devs : List Device) : List Device :=
  if remoteStatus == 200 && data.get? "success" == some (.bool true) then
    if userId ≠ "" then
      if devs.any (fun d => d.sessionId == sessionId) then devs
      else if writeOk then
        devs ++ [{ uuid := uuid, key := key, sessionId := sessionId, number := "",
                   status := "connecting", userId := userId }]
      else devs
    else devs
  else devs

/-- `GET /session/start/:sessionId`: relays the provider response
unchanged and attempts the device-creation side effect. -/
def startSessionHandler (sessionId userId key uuid : String) (remoteStatus : Nat)
    (text : String) (parsed : Option Json) (writeOk : Bool) (db : DB) :
    (Nat × Json) × DB :=
  let data := relayData text parsed
  ((remoteStatus, data),
   { db with devices := startSessionDevices sessionId userId key uuid remoteStatus data writeOk db.devices })

/-- Outcome of `GET /session/qr/:sessionId/image`: a PNG rendered from
the `qr` field, or a JSON pass-through. -/
inductive QrImageResult where
  | image (qrPayload : Json)
  | json (status : Nat) (body : Json)
deriving Repr, DecidableEq

/-- Body of the connectivity-failure catch-all in the session routes. -/
def connectFailBody : Json :=
  .obj [("success", .bool false), ("message", .str "Failed to connect to remote API")]

/-- `GET /session/qr/:sessionId/image` (lines 515-555): uses
`response.json()`, which throws on a non-JSON body; the throw lands in
the catch-all, producing the 500 connectivity response.  A parsed body
with a truthy `qr` field is rendered as an image; otherwise the JSON is
passed through with the provider's status. -/
def qrImageHandler (remoteStatus : Nat) (text : String) (parsed : Option Json) : QrImageResult :=
  match parsed with
  | none => .json 500 connectFailBody
  | some d =>
    if optTruthy (d.get? "qr") then .image ((d.get? "qr").getD .null)
    else .json remoteStatus d

/-- Whether an optional value holds an array longer than 10. -/
def arrLongerThan10 : Option Json → Bool
  | some (.arr xs) => xs.length > 10
  | _ => false

/-- `{...data, k: v}` when `k` is an existing key: same key order, value
replaced. -/
def setKey (fs : List (String × Json)) (k : String) (v : Json) : List (String × Json) :=
  fs.map (fun p => if p.1 == k then (p.1, v) else p)

/-- First ten entries of an optional array (callers guard on
`arrLongerThan10`). -/
def takeTen : Option Json → Json
  | some (.arr xs) => .arr (xs.take 10)
  | _ => .null

/-- Response shaping of `GET /client/getContacts/:sessionId`
(lines 1297-1314): an `else if` chain truncating a top-level array, else
a `contacts`-key array, else a `data`-key array, each only when longer
than 10. -/
def getContactsTruncate (data : Json) : Json :=
  match data with
  | .arr xs => if xs.length > 10 then .arr (xs.take 10) else .arr xs
  | .obj fs =>
    if arrLongerThan10 ((Json.obj fs).get? "contacts") then
      .obj (setKey fs "contacts" (takeTen ((Json.obj fs).get? "contacts")))
    else if arrLongerThan10 ((Json.obj fs).get? "data") then
      .obj (setKey fs "data" (takeTen ((Json.obj fs).get? "data")))
    else .obj fs
  | other => other

/-- Contact-collection extraction of the sync block (lines 1261-1279):
a top-level array, else an array under `contacts`, else under `data`,
else the body itself when it is a non-empty object with a truthy `id`,
`name` or `number`. -/
def getContactsCollection (data : Json) : List Json :=
  match data with
  | .arr xs => xs
  | _ =>
    match data.get? "contacts", optTruthy (data.get? "contacts") with
    | some (.arr cs), true => cs
    | _, _ =>
      match data.get? "data", optTruthy (data.get? "data") with
      | some (.arr ds), true => ds
      | _, _ =>
        match data with
        | .obj (_ :: _) =>
          if optTruthy (data.get? "id") || optTruthy (data.get? "name")
              || optTruthy (data.get? "number") then [data]
          else []
        | _ => []

/-- Contact-sync side effect of `GET /client/getContacts/:sessionId`
(lines 1252-1295): on a 200 with `success === true`, an array, or an
object body, and a device found for `sessionId`, the extracted
collection is bulk-saved; errors are swallowed. -/
def getContactsSync (sessionId : String) (remoteStatus : Nat) (data : Json)
    (gen : Nat → String) (db : DB) : DB :=
  let successResponse := remoteStatus == 200
    && (data.get? "success" == some (.bool true)
      || (match data with | .arr _ => true | .obj _ => true | _ => false))
  if successResponse && sessionId ≠ "" then
    match db.devices.find? (fun d => d.sessionId == sessionId) with
    | some device =>
      let contactsData := getContactsCollection data
      if contactsData.length > 0 then
        { db with contacts := saveContactsStore device.key gen 0 contactsData db.contacts }
      else db
    | none => db
  else db

/-- `GET /client/getContacts/:sessionId`: sync side effect, then the
truncated pass-through of the provider's status and body. -/
def getContactsHandler (sessionId : String) (remoteStatus : Nat) (text : String)
    (parsed : Option Json) (gen : Nat → String) (db : DB) : (Nat × Json) × DB :=
  let data := relayData text parsed
  ((remoteStatus, getContactsTruncate data),
   getContactsSync sessionId remoteStatus data gen db)

/-! ## Delivery sequences (for the lifecycle last-write-wins property) -/

/-- Deliver a list of webhook bodies in order, `gen i` supplying the
uuid for the i-th delivery. -/
def deliverAll (secret : String) (gen : Nat → String) : List Json → Nat → DB → DB
  | [], _, db => db
  | b :: bs, i, db =>
    deliverAll secret gen bs (i + 1) (webhookHandler secret (some secret) b (gen i) db).2

/-- The last allow-listed `dataType` occurring in a delivery sequence. -/
def lastStatusOf : List Json → Option String
  | [] => none
  | b :: bs =>
    match lastStatusOf bs with
    | some t => some t
    | none =>
      match b.get? "dataType" with
      | some (.str t) => if t ∈ statusDataTypes then some t else none
      | _ => none

/-! ## Helper lemmas -/

theorem optTruthy_getD_truthy {o : Option Json} (h : optTruthy o = true) :
    (o.getD .null).truthy = true := by
  cases o with
  | none => simp [optTruthy] at h
  | some v => simpa [optTruthy] using h

theorem truthy_of_get? {p : Json} {k : String} (h : optTruthy (p.get? k) = true) :
    p.truthy = true := by
  cases p <;> simp [Json.get?, optTruthy, Json.truthy] at h ⊢

theorem optTruthy_getOpt {o : Option Json} {k : String}
    (h : optTruthy (Json.getOpt o k) = true) : optTruthy o = true := by
  cases o with
  | none => simp [Json.getOpt, optTruthy] at h
  | some v => simp [optTruthy]; exact truthy_of_get? (p := v) (k := k) h

theorem selectMessageSource_eq_spec (p : Json) : selectMessageSource p = specSelectSource p := by
  unfold selectMessageSource specSelectSource
  by_cases h1 : optTruthy (p.get? "_data") = true
  · simp [h1, truthy_of_get? h1]
  · simp only [Bool.not_eq_true] at h1
    by_cases h2 : optTruthy (Json.getOpt (p.get? "message") "_data") = true
    · have hm : optTruthy (p.get? "message") = true := optTruthy_getOpt h2
      simp [h1, h2, hm, truthy_of_get? hm]
    · simp only [Bool.not_eq_true] at h2
      by_cases h3 : optTruthy (p.get? "message") = true
      · simp [h1, h2, h3, truthy_of_get? h3]
      · simp only [Bool.not_eq_true] at h3
        simp [h1, h2, h3]

theorem jsOr_specFirstTruthy (a : Option Json) (cs : List (Option Json)) (d : Json) :
    jsOr a (specFirstTruthy cs d) = specFirstTruthy (a :: cs) d := by
  cases a with
  | none => simp [jsOr, specFirstTruthy, optTruthy]
  | some v =>
    by_cases hv : v.truthy = true
    · simp [jsOr, specFirstTruthy, optTruthy, hv]
    · simp only [Bool.not_eq_true] at hv
      simp [jsOr, specFirstTruthy, optTruthy, hv]

theorem truthy_selectMessageSource {p : Json} (h : p.truthy = true) :
    (selectMessageSource p).truthy = true := by
  unfold selectMessageSource
  by_cases h1 : optTruthy (p.get? "_data") = true
  · simp [h, h1, optTruthy_getD_truthy h1]
  · simp only [Bool.not_eq_true] at h1
    by_cases h2 : optTruthy (Json.getOpt (p.get? "message") "_data") = true
    · have hm : optTruthy (p.get? "message") = true := optTruthy_getOpt h2
      simp [h, h1, h2, hm, optTruthy_getD_truthy h2]
    · simp only [Bool.not_eq_true] at h2
      by_cases h3 : optTruthy (p.get? "message") = true
      · simp [h, h1, h2, h3, optTruthy_getD_truthy h3]
      · simp only [Bool.not_eq_true] at h3
        simp [h, h1, h2, h3]

theorem find?_session_update (devs : List Device) (sid t s : String) :
    (updateDeviceStatus sid t devs).find? (fun d => d.sessionId == s)
      = (devs.find? (fun d => d.sessionId == s)).map
          (fun d => if d.sessionId == sid then { d with status := t } else d) := by
  induction devs with
  | nil => rfl
  | cons d ds ih =>
    have hcons : updateDeviceStatus sid t (d :: ds)
        = (if d.sessionId == sid then { d with status := t } else d)
          :: updateDeviceStatus sid t ds := rfl
    have hsess : (if d.sessionId == sid then { d with status := t } else d).sessionId
        = d.sessionId := by split <;> rfl
    have step : ∀ (p : Device → Bool) (a : Device) (l : List Device),
        (a :: l).find? p = if p a then some a else l.find? p := by
      intro p a l
      cases h : p a <;> simp [List.find?_cons, h]
    rw [hcons, step, step]
    simp only [hsess]
    by_cases hd : (d.sessionId == s) = true
    · simp [hd]
    · simp only [Bool.not_eq_true] at hd
      simp [hd, ih]

theorem statusDataTypes_ne_empty {t : String} (h : t ∈ statusDataTypes) : t ≠ "" := by
  simp [statusDataTypes] at h
  rcases h with rfl | rfl | rfl | rfl | rfl | rfl <;> decide

theorem webhookStatusStep_six {body : Json} {sid t : String} (devs : List Device)
    (h1 : body.get? "sessionId" = some (.str sid)) (h2 : sid ≠ "")
    (h3 : body.get? "dataType" = some (.str t)) (h4 : t ∈ statusDataTypes) :
    webhookStatusStep body devs = updateDeviceStatus sid t devs := by
  have ht : t ≠ "" := statusDataTypes_ne_empty h4
  simp [webhookStatusStep, h1, h3, optTruthy, Json.truthy, h2, ht, h4]

theorem webhookStatusStep_other {body : Json} (devs : List Device)
    (h : ∀ t, body.get? "dataType" = some (.str t) → t ∉ statusDataTypes) :
    webhookStatusStep body devs = devs := by
  unfold webhookStatusStep
  by_cases hc : (optTruthy (body.get? "sessionId") && optTruthy (body.get? "dataType")) = true
  · simp only [hc, if_true]
    cases hs : body.get? "sessionId" with
    | none => rfl
    | some vs =>
      cases vs <;> try rfl
      cases hdt : body.get? "dataType" with
      | none => rfl
      | some vt =>
        cases vt <;> try rfl
        rename_i s t
        simp [h t hdt]
  · simp only [Bool.not_eq_true] at hc
    simp [hc]

theorem webhookHandler_devices (secret : String) (body : Json) (uuid : String) (db : DB) :
    ((webhookHandler secret (some secret) body uuid db).2).devices
      = webhookStatusStep body db.devices := by
  unfold webhookHandler
  dsimp only
  simp only [ne_eq, not_true_eq_false, if_false, reduceIte]
  split
  · rfl
  · split <;> (try split) <;> (try split) <;> (try split) <;> rfl

theorem webhookHandler_contacts (secret : String) (apiKey : Option String) (body : Json)
    (uuid : String) (db : DB) :
    ((webhookHandler secret apiKey body uuid db).2).contacts = db.contacts := by
  unfold webhookHandler
  dsimp only
  split
  · rfl
  · split
    · rfl
    · split <;> (try split) <;> (try split) <;> (try split) <;> rfl

theorem find?_statusStep_none {body : Json} {s : String} {devs : List Device}
    (hs : body.get? "sessionId" = some (.str s))
    (h : ∀ d ∈ devs, d.sessionId ≠ s) :
    (webhookStatusStep body devs).find? (fun d => d.sessionId == s) = none := by
  have hnone : devs.find? (fun d => d.sessionId == s) = none :=
    List.find?_eq_none.mpr (fun d hd => by simp [h d hd])
  unfold webhookStatusStep
  rw [hs]
  dsimp only
  split
  · split
    · split
      · rw [find?_session_update, hnone]
        rfl
      · exact hnone
    · exact hnone
  · exact hnone

theorem webhookHandler_messages_nodevice (secret : String) (apiKey : Option String)
    (body : Json) (uuid : String) (db : DB)
    (h : ∀ s, body.get? "sessionId" = some (.str s) → ∀ d ∈ db.devices, d.sessionId ≠ s) :
    ((webhookHandler secret apiKey body uuid db).2).messages = db.messages := by
  unfold webhookHandler
  dsimp only
  split
  · rfl
  · split
    · rfl
    · split
      · rename_i md s hmd hs
        split
        · rename_i hne
          rw [find?_statusStep_none hs (h s hs)]
        · rfl
      · rfl

theorem statusStep_find? {body : Json} {sid : String} (devs : List Device)
    (hs : body.get? "sessionId" = some (.str sid)) (hsne : sid ≠ "") :
    (webhookStatusStep body devs).find? (fun d => d.sessionId == sid)
      = (devs.find? (fun d => d.sessionId == sid)).map
          (fun d =>
            match body.get? "dataType" with
            | some (.str t) => if t ∈ statusDataTypes then { d with status := t } else d
            | _ => d) := by
  have base : ∀ (l : List Device) (f : Device → Device), (∀ d, f d = d) →
      l.find? (fun d => d.sessionId == sid) = (l.find? (fun d => d.sessionId == sid)).map f := by
    intro l f hf
    cases l.find? (fun d => d.sessionId == sid) with
    | none => rfl
    | some d => simp [hf d]
  unfold webhookStatusStep
  rw [hs]
  dsimp only
  cases hdt : body.get? "dataType" with
  | none => split <;> exact base devs _ (fun d => rfl)
  | some vt =>
    cases vt with
    | null => split <;> exact base devs _ (fun d => rfl)
    | bool b => split <;> exact base devs _ (fun d => rfl)
    | num n => split <;> exact base devs _ (fun d => rfl)
    | arr xs => split <;> exact base devs _ (fun d => rfl)
    | obj fs => split <;> exact base devs _ (fun d => rfl)
    | str t =>
      split
      · dsimp only
        by_cases htm : t ∈ statusDataTypes
        · rw [if_pos htm, find?_session_update]
          cases hf : devs.find? (fun d => d.sessionId == sid) with
          | none => rfl
          | some d =>
            have hpred : (d.sessionId == sid) = true :=
              List.find?_some (p := fun x : Device => x.sessionId == sid) hf
            have heq : d.sessionId = sid := by simpa using hpred
            simp [hpred, htm, heq]
        · rw [if_neg htm]
          exact base devs _ (fun d => by try dsimp only
                                         rw [if_neg htm])
      · rename_i hc
        have h1 : (sid != "") = true := by simp [hsne]
        simp only [optTruthy, Json.truthy, h1, Bool.true_and, Bool.not_eq_true] at hc
        have ht : t = "" := by
          by_cases h : t = ""
          · exact h
          · exfalso; rw [show (t != "") = true from by simp [h]] at hc; exact Bool.noConfusion hc
        subst ht
        exact base devs _ (fun d => by try dsimp only
                                       rw [if_neg (by decide)])

theorem deliverAll_status (secret : String) (gen : Nat → String) (sid : String)
    (hsne : sid ≠ "") :
    ∀ (bodies : List Json) (i : Nat) (db : DB),
    (∀ b ∈ bodies, b.get? "sessionId" = some (.str sid)) →
    ((deliverAll secret gen bodies i db).devices.find?
        (fun d => d.sessionId == sid)).map Device.status
      = (db.devices.find? (fun d => d.sessionId == sid)).map
          (fun d => (lastStatusOf bodies).getD d.status) := by
  intro bodies
  induction bodies with
  | nil =>
    intro i db _
    simp only [deliverAll, lastStatusOf]
    cases db.devices.find? (fun d => d.sessionId == sid) <;> rfl
  | cons b bs ih =>
    intro i db hmem
    have hb : b.get? "sessionId" = some (.str sid) := hmem b (List.mem_cons_self b bs)
    have hbs : ∀ x ∈ bs, x.get? "sessionId" = some (.str sid) :=
      fun x hx => hmem x (List.mem_cons_of_mem b hx)
    show ((deliverAll secret gen bs (i + 1)
        (webhookHandler secret (some secret) b (gen i) db).2).devices.find?
          (fun d => d.sessionId == sid)).map Device.status = _
    rw [ih (i + 1) _ hbs, webhookHandler_devices, statusStep_find? db.devices hb hsne,
      Option.map_map]
    cases hf : db.devices.find? (fun d => d.sessionId == sid) with
    | none => rfl
    | some d =>
      simp only [Option.map_some', Option.some.injEq, Function.comp_apply]
      cases hls : lastStatusOf bs with
      | some u => simp [lastStatusOf, hls]
      | none =>
        cases hdt : b.get? "dataType" with
        | none => simp [lastStatusOf, hls, hdt]
        | some vt =>
          cases vt with
          | str t =>
            by_cases htm : t ∈ statusDataTypes
            · simp [lastStatusOf, hls, hdt, htm]
            · simp [lastStatusOf, hls, hdt, htm]
          | null => simp [lastStatusOf, hls, hdt]
          | bool x => simp [lastStatusOf, hls, hdt]
          | num x => simp [lastStatusOf, hls, hdt]
          | arr x => simp [lastStatusOf, hls, hdt]
          | obj x => simp [lastStatusOf, hls, hdt]

/-! ## Claim theorems -/

/-- C3: an authenticated webhook delivery with a `dataType` in the
six-element allow-list sets the Device's status for its `sessionId` to
exactly that literal; any other `dataType` leaves the device store
untouched; after a sequence of deliveries for the same `sessionId`, the
status equals the last allow-listed `dataType` delivered (the original
status when none occurs), irrespective of intervening unrelated
`dataType` values. -/
theorem claim_C3_lifecycle_status :
    (∀ (secret uuid : String) (db : DB) (body : Json) (sid t : String),
      body.get? "sessionId" = some (.str sid) → sid ≠ "" →
      body.get? "dataType" = some (.str t) → t ∈ statusDataTypes →
      ((webhookHandler secret (some secret) body uuid db).2.devices.find?
          (fun d => d.sessionId == sid)).map Device.status
        = (db.devices.find? (fun d => d.sessionId == sid)).map (fun _ => t))
    ∧ (∀ (secret uuid : String) (db : DB) (body : Json),
      (∀ t, body.get? "dataType" = some (.str t) → t ∉ statusDataTypes) →
      (webhookHandler secret (some secret) body uuid db).2.devices = db.devices)
    ∧ (∀ (secret : String) (gen : Nat → String) (db : DB) (sid : String)
        (bodies : List Json) (i : Nat),
      sid ≠ "" →
      (∀ b ∈ bodies, b.get? "sessionId" = some (.str sid)) →
      ((deliverAll secret gen bodies i db).devices.find?
          (fun d => d.sessionId == sid)).map Device.status
        = (db.devices.find? (fun d => d.sessionId == sid)).map
            (fun d => (lastStatusOf bodies).getD d.status)) := by
  refine ⟨?_, ?_, ?_⟩
  · intro secret uuid db body sid t hs hsne ht htm
    rw [webhookHandler_devices, statusStep_find? db.devices hs hsne, Option.map_map]
    cases hf : db.devices.find? (fun d => d.sessionId == sid) with
    | none => rfl
    | some d => simp [ht, htm]
  · intro secret uuid db body h
    rw [webhookHandler_devices, webhookStatusStep_other db.devices h]
  · intro secret gen db sid bodies i hsne hmem
    exact deliverAll_status secret gen sid hsne bodies i db hmem

/-- Witness for C3: one device for session `abc123`; delivering `ready`,
then the non-allow-listed `message`, then `disconnected` leaves the
device with status `disconnected`, the last allow-listed dataType. -/
theorem claim_C3_lifecycle_status_witness :
    ("abc123" : String) ≠ ""
    ∧ (∀ b ∈ [Json.obj [("sessionId", .str "abc123"), ("dataType", .str "ready")],
        Json.obj [("sessionId", .str "abc123"), ("dataType", .str "message")],
        Json.obj [("sessionId", .str "abc123"), ("dataType", .str "disconnected")]],
        b.get? "sessionId" = some (.str "abc123"))
    ∧ ((deliverAll "sec" (fun _ => "u")
          [Json.obj [("sessionId", .str "abc123"), ("dataType", .str "ready")],
           Json.obj [("sessionId", .str "abc123"), ("dataType", .str "message")],
           Json.obj [("sessionId", .str "abc123"), ("dataType", .str "disconnected")]] 0
          ⟨[⟨"du", "K1", "abc123", "", "connecting", "u1"⟩], [], []⟩).devices.find?
            (fun d => d.sessionId == "abc123")).map Device.status
        = ((⟨[⟨"du", "K1", "abc123", "", "connecting", "u1"⟩], [], []⟩ : DB).devices.find?
            (fun d => d.sessionId == "abc123")).map
            (fun d => (lastStatusOf
              [Json.obj [("sessionId", .str "abc123"), ("dataType", .str "ready")],
               Json.obj [("sessionId", .str "abc123"), ("dataType", .str "message")],
               Json.obj [("sessionId", .str "abc123"), ("dataType", .str "disconnected")]]).getD
              d.status) :=
  ⟨by decide, by decide,
    claim_C3_lifecycle_status.2.2 "sec" (fun _ => "u")
      ⟨[⟨"du", "K1", "abc123", "", "connecting", "u1"⟩], [], []⟩ "abc123"
      [Json.obj [("sessionId", .str "abc123"), ("dataType", .str "ready")],
       Json.obj [("sessionId", .str "abc123"), ("dataType", .str "message")],
       Json.obj [("sessionId", .str "abc123"), ("dataType", .str "disconnected")]] 0
      (by decide) (by decide)⟩

/-- C1 (code bug): an authenticated delivery whose `dataType` is
`device_linked` but whose body has no `data` object makes the handler
dereference `data.device` outside every `try`, so fastify's error
handler answers 500 instead of the promised unconditional 200
acknowledgment; the same delivery with a `data` object is acknowledged
with 200.  Authentication is not the only error-status path. -/
theorem claim_C1_webhook_500_on_device_linked_without_data :
    (webhookHandler "sec" (some "sec")
        (.obj [("sessionId", .str "s1"), ("dataType", .str "device_linked")]) "u"
        ⟨[], [], []⟩).1 = .serverError
    ∧ (webhookHandler "sec" (some "sec")
        (.obj [("sessionId", .str "s1"), ("dataType", .str "device_linked"),
               ("data", .obj [("device", .str "d1")])]) "u"
        ⟨[], [], []⟩).1 = .ok (some (.str "device_linked")) (.str "s1") :=
  ⟨rfl, rfl⟩

/-- C9 (code bug): when no Device matches the delivery's `sessionId`,
no Message row and no Contact row is created — the webhook handler
never writes contacts at all, and the message save is skipped when the
device lookup fails.  But the "still acknowledges 200" half of the
claim fails on the same `data.device` slip as C1: a device-unlinked
delivery without `data` for an unknown session returns 500. -/
theorem claim_C9_unresolvable_session_no_rows :
    (∀ (secret : String) (apiKey : Option String) (body : Json) (uuid : String) (db : DB),
      (∀ d ∈ db.devices, body.get? "sessionId" ≠ some (.str d.sessionId)) →
      ((webhookHandler secret apiKey body uuid db).2.messages = db.messages
        ∧ (webhookHandler secret apiKey body uuid db).2.contacts = db.contacts))
    ∧ (webhookHandler "sec" (some "sec")
        (.obj [("sessionId", .str "ghost"), ("dataType", .str "device_unlinked")]) "u"
        ⟨[⟨"du", "K1", "other", "", "ready", "u1"⟩], [], []⟩).1 = .serverError := by
  constructor
  · intro secret apiKey body uuid db h
    constructor
    · refine webhookHandler_messages_nodevice secret apiKey body uuid db ?_
      intro s hs d hd heq
      exact h d hd (by rw [hs, heq])
    · exact webhookHandler_contacts secret apiKey body uuid db
  · rfl

/-- Witness for C9: a delivery for session `ghost` with only a device
for session `other` stored creates no Message and no Contact row. -/
theorem claim_C9_unresolvable_session_no_rows_witness :
    ((webhookHandler "sec" (some "sec")
        (.obj [("sessionId", .str "ghost"), ("dataType", .str "message"),
               ("data", .obj [("id", .str "m1"), ("body", .str "hi")])]) "u"
        ⟨[⟨"du", "K1", "other", "", "ready", "u1"⟩], [], []⟩).2.messages
      = (⟨[⟨"du", "K1", "other", "", "ready", "u1"⟩], [], []⟩ : DB).messages
    ∧ (webhookHandler "sec" (some "sec")
        (.obj [("sessionId", .str "ghost"), ("dataType", .str "message"),
               ("data", .obj [("id", .str "m1"), ("body", .str "hi")])]) "u"
        ⟨[⟨"du", "K1", "other", "", "ready", "u1"⟩], [], []⟩).2.contacts
      = (⟨[⟨"du", "K1", "other", "", "ready", "u1"⟩], [], []⟩ : DB).contacts) :=
  claim_C9_unresolvable_session_no_rows.1 "sec" (some "sec")
    (.obj [("sessionId", .str "ghost"), ("dataType", .str "message"),
           ("data", .obj [("id", .str "m1"), ("body", .str "hi")])]) "u"
    ⟨[⟨"du", "K1", "other", "", "ready", "u1"⟩], [], []⟩ (by decide)

theorem jsOr_single_spec (a : Option Json) (d : Json) : jsOr a d = specFirstTruthy [a] d := by
  cases a with
  | none => simp [jsOr, specFirstTruthy, optTruthy]
  | some v =>
    by_cases hv : v.truthy = true
    · simp [jsOr, specFirstTruthy, optTruthy, hv]
    · simp only [Bool.not_eq_true] at hv
      simp [jsOr, specFirstTruthy, optTruthy, hv]

theorem jsOr2_spec (a b : Option Json) (d : Json) :
    jsOr a (jsOr b d) = specFirstTruthy [a, b] d := by
  rw [jsOr_single_spec b d]
  exact jsOr_specFirstTruthy a [b] d

/-- C4: message normalization selects the source object by the
precedence `_data` → `message._data` → `message` → the payload itself
(the specification's first-present-wins list coincides with the
code's guarded chain); each canonical field is extracted by a
first-truthy-wins precedence list (`id._serialized` → `id` → `""`;
`t` → `timestamp` → `0`; `from.user` → `from`; `to.user` → `to`);
every truthy payload is persisted (never rejected), and a payload with
no usable fields yields the empty-string/zero/null default record. -/
theorem claim_C4_normalization_precedence :
    (∀ p : Json, selectMessageSource p = specSelectSource p)
    ∧ (∀ (dk u : String) (p : Json) (r : MessageRecord),
        saveMessageRecord dk u p = some r →
        r.messageId = specFirstTruthy
            [Json.getOpt ((selectMessageSource p).get? "id") "_serialized",
             (selectMessageSource p).get? "id"] (.str "")
        ∧ r.timestamp = specFirstTruthy
            [(selectMessageSource p).get? "t",
             (selectMessageSource p).get? "timestamp"] (.num 0)
        ∧ r.from_ = specFirstTruthy
            [Json.getOpt ((selectMessageSource p).get? "from") "user",
             (selectMessageSource p).get? "from"] .null
        ∧ r.to_ = specFirstTruthy
            [Json.getOpt ((selectMessageSource p).get? "to") "user",
             (selectMessageSource p).get? "to"] .null)
    ∧ (∀ (dk u : String) (p : Json), p.truthy = true → (saveMessageRecord dk u p).isSome = true)
    ∧ (∀ dk u : String, saveMessageRecord dk u (.obj [])
        = some { uuid := u, deviceKey := dk, messageId := .str "", read := .num 0,
                 noTujuan := .null, text := .str "", isGroup := .bool false,
                 secure := .bool false, timestamp := .num 0, from_ := .null,
                 fromMe := .bool false, to_ := .null, type := .str "" }) := by
  refine ⟨selectMessageSource_eq_spec, ?_, ?_, ?_⟩
  · intro dk u p r hr
    simp only [saveMessageRecord] at hr
    by_cases hn : selectMessageSource p = .null
    · rw [if_pos hn] at hr
      exact absurd hr (by simp)
    · rw [if_neg hn] at hr
      cases Option.some.inj hr
      exact ⟨jsOr2_spec _ _ _, jsOr2_spec _ _ _, jsOr2_spec _ _ _, jsOr2_spec _ _ _⟩
  · intro dk u p hp
    have ht := truthy_selectMessageSource hp
    have hn : selectMessageSource p ≠ .null := by
      intro e
      rw [e] at ht
      exact Bool.noConfusion ht
    simp only [saveMessageRecord]
    rw [if_neg hn]
    rfl
  · intro dk u
    rfl

/-- Witness for C4: a `_data`-wrapped payload with a serialized id,
epoch `t`, `from` and `to` normalizes to the expected record, and its
`messageId` matches the specification's precedence list. -/
theorem claim_C4_normalization_precedence_witness :
    saveMessageRecord "K" "u"
        (.obj [("_data", .obj [("id", .obj [("_serialized", .str "m1")]), ("t", .num 9),
          ("from", .str "111"), ("to", .str "222")])])
      = some { uuid := "u", deviceKey := "K", messageId := .str "m1", read := .num 0,
               noTujuan := .str "222", text := .str "", isGroup := .bool false,
               secure := .bool false, timestamp := .num 9, from_ := .str "111",
               fromMe := .bool false, to_ := .str "222", type := .str "" }
    ∧ (({ uuid := "u", deviceKey := "K", messageId := .str "m1", read := .num 0,
          noTujuan := .str "222", text := .str "", isGroup := .bool false,
          secure := .bool false, timestamp := .num 9, from_ := .str "111",
          fromMe := .bool false, to_ := .str "222", type := .str "" } : MessageRecord).messageId
        = specFirstTruthy
            [Json.getOpt ((selectMessageSource (.obj [("_data", .obj [("id", .obj
                [("_serialized", .str "m1")]), ("t", .num 9), ("from", .str "111"),
                ("to", .str "222")])])).get? "id") "_serialized",
             (selectMessageSource (.obj [("_data", .obj [("id", .obj
                [("_serialized", .str "m1")]), ("t", .num 9), ("from", .str "111"),
                ("to", .str "222")])])).get? "id"] (.str "")) :=
  ⟨rfl, (claim_C4_normalization_precedence.2.1 "K" "u"
    (.obj [("_data", .obj [("id", .obj [("_serialized", .str "m1")]), ("t", .num 9),
      ("from", .str "111"), ("to", .str "222")])]) _ rfl).1⟩

/-- C7: a set of message fields nested as `{message: {_data: F}}` and
the same fields given bare normalize to identical canonical records, in
every field.  (The field set `F` must not itself use the reserved
nesting keys `_data` / `message`, which the wrapper shapes interpret.) -/
theorem claim_C7_nested_bare_roundtrip :
    ∀ (dk u : String) (fs : List (String × Json)),
    (Json.obj fs).get? "_data" = none → (Json.obj fs).get? "message" = none →
    saveMessageRecord dk u (.obj [("message", .obj [("_data", .obj fs)])])
      = saveMessageRecord dk u (.obj fs) := by
  intro dk u fs h1 h2
  have hsel1 : selectMessageSource (.obj [("message", .obj [("_data", .obj fs)])])
      = .obj fs := rfl
  have hsel2 : selectMessageSource (.obj fs) = .obj fs := by
    unfold selectMessageSource
    rw [h1, h2]
    simp [optTruthy, Json.getOpt]
  simp only [saveMessageRecord, hsel1, hsel2]

/-- Witness for C7: the nested and bare forms of
`{id: "m1", body: "hi", t: 7}` produce the same record. -/
theorem claim_C7_nested_bare_roundtrip_witness :
    (Json.obj [("id", .str "m1"), ("body", .str "hi"), ("t", .num 7)]).get? "_data" = none
    ∧ (Json.obj [("id", .str "m1"), ("body", .str "hi"), ("t", .num 7)]).get? "message" = none
    ∧ saveMessageRecord "K" "u"
        (.obj [("message", .obj [("_data",
          .obj [("id", .str "m1"), ("body", .str "hi"), ("t", .num 7)])])])
      = saveMessageRecord "K" "u"
        (.obj [("id", .str "m1"), ("body", .str "hi"), ("t", .num 7)]) :=
  ⟨rfl, rfl,
    claim_C7_nested_bare_roundtrip "K" "u"
      [("id", .str "m1"), ("body", .str "hi"), ("t", .num 7)] rfl rfl⟩

/-- C8 counterexample: on a non-JSON provider body (`JSON.parse`
fails), the qr-image relay does not return the `{raw: text}` fallback:
`response.json()` throws and the catch-all converts the call into the
500 connectivity failure, whose body has no `raw` field at all. -/
theorem claim_C8_counterexample_qr_image_discards_raw :
    qrImageHandler 200 "hello" none = .json 500 connectFailBody
    ∧ connectFailBody.get? "raw" = none
    ∧ relayResponse 200 "hello" none = (200, .obj [("raw", .str "hello")]) :=
  ⟨rfl, rfl, rfl⟩

/-- C8 (amended): every relay operation that parses with
`JSON.parse`-plus-fallback preserves a non-JSON provider body as
`{raw: text}` under the provider's own status code: the shared
relay path of the seven generic operations (status, qr, restart,
terminate, terminateInactive, terminateAll, sendMessage), the start
relay (which moreover performs no device write, since `{raw: text}`
has no `success: true`), and the getContacts relay (whose truncation
leaves `{raw: text}` intact and whose sync extracts no contact
collection from it, so the store is untouched).  The qr-image handler,
which uses `response.json()`, instead converts a non-JSON body into
the 500 connectivity failure. -/
theorem claim_C8_raw_fallback :
    (∀ (st : Nat) (text : String),
      relayResponse st text none = (st, .obj [("raw", .str text)]))
    ∧ (∀ (sid userId key uuid : String) (st : Nat) (text : String) (writeOk : Bool) (db : DB),
      (startSessionHandler sid userId key uuid st text none writeOk db).1
          = (st, .obj [("raw", .str text)])
        ∧ (startSessionHandler sid userId key uuid st text none writeOk db).2 = db)
    ∧ (∀ (sid : String) (st : Nat) (text : String) (gen : Nat → String) (db : DB),
      (getContactsHandler sid st text none gen db).1 = (st, .obj [("raw", .str text)])
        ∧ (getContactsHandler sid st text none gen db).2 = db)
    ∧ (∀ (st : Nat) (text : String),
      qrImageHandler st text none = .json 500 connectFailBody) := by
  refine ⟨fun st text => rfl, ?_, ?_, fun st text => rfl⟩
  · intro sid userId key uuid st text writeOk db
    constructor
    · rfl
    · simp only [startSessionHandler, startSessionDevices, relayData]
      simp [Json.get?]
  · intro sid st text gen db
    constructor
    · rfl
    · show getContactsSync sid st (relayData text none) gen db = db
      unfold getContactsSync
      dsimp only
      split
      · split
        · rw [show getContactsCollection (relayData text none) = [] from rfl]
          simp
        · rfl
      · rfl

/-- C6 counterexample: when the provider body holds >10-element arrays
under both the `contacts` and the `data` key, only `contacts` is
truncated — the `data` array (11 entries, more than 10) is returned to
the caller untouched, so truncation does not apply to every qualifying
contact array. -/
theorem claim_C6_counterexample_dual_arrays :
    (getContactsHandler "s" 200 "t"
        (some (.obj [("contacts", .arr (List.replicate 11 (.num 1))),
                     ("data", .arr (List.replicate 11 (.num 1)))]))
        (fun _ => "u") ⟨[], [], []⟩).1.2.get? "data"
      = some (.arr (List.replicate 11 (.num 1)))
    ∧ (List.replicate 11 (Json.num 1)).length > 10 :=
  ⟨rfl, by decide⟩

/-- C6 (amended): the getContacts relay truncates exactly one contact
array, chosen by the precedence top-level → `contacts` key → `data` key
(a `data`-key array is truncated only when the `contacts` key does not
hold an array longer than 10), to its first 10 entries, leaving every
other field unchanged; this holds for every store state — whether a
Device exists for the session, and whether sync ran or was skipped, the
relayed status stays the provider's and the body is shaped the same. -/
theorem claim_C6_truncation :
    (∀ (sid : String) (st : Nat) (text : String) (gen : Nat → String) (db : DB)
        (xs : List Json),
      xs.length > 10 →
      (getContactsHandler sid st text (some (.arr xs)) gen db).1 = (st, .arr (xs.take 10)))
    ∧ (∀ (sid : String) (st : Nat) (text : String) (gen : Nat → String) (db : DB)
        (fs : List (String × Json)) (cs : List Json),
      (Json.obj fs).get? "contacts" = some (.arr cs) → cs.length > 10 →
      (getContactsHandler sid st text (some (.obj fs)) gen db).1
        = (st, .obj (setKey fs "contacts" (.arr (cs.take 10)))))
    ∧ (∀ (sid : String) (st : Nat) (text : String) (gen : Nat → String) (db : DB)
        (fs : List (String × Json)) (ds : List Json),
      arrLongerThan10 ((Json.obj fs).get? "contacts") = false →
      (Json.obj fs).get? "data" = some (.arr ds) → ds.length > 10 →
      (getContactsHandler sid st text (some (.obj fs)) gen db).1
        = (st, .obj (setKey fs "data" (.arr (ds.take 10))))) := by
  refine ⟨?_, ?_, ?_⟩
  · intro sid st text gen db xs hlen
    simp only [getContactsHandler, relayData, getContactsTruncate, if_pos hlen]
  · intro sid st text gen db fs cs hc hlen
    have hlong : arrLongerThan10 ((Json.obj fs).get? "contacts") = true := by
      rw [hc]; simpa [arrLongerThan10] using hlen
    simp only [getContactsHandler, relayData, getContactsTruncate, hlong, if_true,
      takeTen, hc]
    simp [arrLongerThan10, hlen]
  · intro sid st text gen db fs ds hn hd hlen
    have hlong : arrLongerThan10 ((Json.obj fs).get? "data") = true := by
      rw [hd]; simpa [arrLongerThan10] using hlen
    simp only [getContactsHandler, relayData, getContactsTruncate, hn, hlong,
      Bool.false_eq_true, if_false, if_true, takeTen, hd]
    simp [arrLongerThan10, hlen]

/-- Witness for C6: a body whose `contacts` key holds 11 entries is
returned with that array cut to 10, its other field untouched. -/
theorem claim_C6_truncation_witness :
    (Json.obj [("success", .bool true), ("contacts", .arr (List.replicate 11 (.num 1)))]).get?
        "contacts" = some (.arr (List.replicate 11 (.num 1)))
    ∧ (List.replicate 11 (Json.num 1)).length > 10
    ∧ (getContactsHandler "s" 200 "t"
          (some (.obj [("success", .bool true),
                       ("contacts", .arr (List.replicate 11 (.num 1)))]))
          (fun _ => "u") ⟨[], [], []⟩).1
        = (200, .obj (setKey [("success", .bool true),
            ("contacts", .arr (List.replicate 11 (.num 1)))] "contacts"
            (.arr ((List.replicate 11 (Json.num 1)).take 10)))) :=
  ⟨rfl, by decide,
    claim_C6_truncation.2.1 "s" 200 "t" (fun _ => "u") ⟨[], [], []⟩
      [("success", .bool true), ("contacts", .arr (List.replicate 11 (.num 1)))]
      (List.replicate 11 (.num 1)) rfl (by decide)⟩

/-- C10 counterexample: a contact payload with a truthy non-boolean
`isUser` (here the number 7) is persisted with `isUser` equal to that
value, not to the boolean `true`, so `contactData.isUser || true` does
not always evaluate to `true`. -/
theorem claim_C10_counterexample_nonbool_isUser :
    (saveContactStore "K" "u0" (.obj [("id", .str "1@c.us"), ("isUser", .num 7)]) []).map
        (fun r => r.fields.isUser) = [.num 7]
    ∧ Json.num 7 ≠ .bool true :=
  ⟨rfl, by decide⟩

/-- C10 (amended): every Contact row written by `saveContact` carries a
truthy `isUser`; whenever the payload's `isUser` is absent, `null`, or
a boolean — including an explicit `isUser: false` — the stored value is
exactly the boolean `true`; and every row of the store after a save is
either an untouched pre-existing row or carries the normalized
fields. -/
theorem claim_C10_isUser_forced_truthy :
    (∀ (dk : String) (cd : Json), ((contactFieldsOf dk cd).isUser).truthy = true)
    ∧ (∀ (dk : String) (cd : Json),
      (cd.get? "isUser" = none ∨ cd.get? "isUser" = some .null
        ∨ cd.get? "isUser" = some (.bool false) ∨ cd.get? "isUser" = some (.bool true)) →
      (contactFieldsOf dk cd).isUser = .bool true)
    ∧ (∀ (dk u : String) (cd : Json) (store : List ContactRecord) (r : ContactRecord),
      r ∈ saveContactStore dk u cd store → r ∈ store ∨ r.fields = contactFieldsOf dk cd) := by
  refine ⟨?_, ?_, ?_⟩
  · intro dk cd
    show (jsOr (cd.get? "isUser") (.bool true)).truthy = true
    cases ho : cd.get? "isUser" with
    | none => rfl
    | some v =>
      by_cases hv : v.truthy = true
      · simp [jsOr, hv]
      · simp only [Bool.not_eq_true] at hv
        simp only [jsOr, hv, Bool.false_eq_true, if_false]
        rfl
  · intro dk cd h
    show jsOr (cd.get? "isUser") (.bool true) = .bool true
    rcases h with h | h | h | h <;> rw [h] <;> rfl
  · intro dk u cd store r hr
    simp only [saveContactStore] at hr
    split at hr
    · rcases List.mem_map.mp hr with ⟨a, ha, hEq⟩
      by_cases hp : (a.contactId == jsString (resolveContactId cd (.str u))) = true
      · right
        rw [← hEq, if_pos hp]
      · left
        rw [← hEq, if_neg hp]
        exact ha
    · rcases List.mem_append.mp hr with h | h
      · exact Or.inl h
      · right
        have hre : r = ⟨u, jsString (resolveContactId cd (.str u)), contactFieldsOf dk cd⟩ := by
          simpa using h
        rw [hre]

/-- Witness for C10: an explicit `isUser: false` payload is stored with
`isUser` exactly `true`. -/
theorem claim_C10_isUser_forced_truthy_witness :
    ((Json.obj [("id", .str "2@c.us"), ("isUser", .bool false)]).get? "isUser"
        = some (.bool false))
    ∧ (contactFieldsOf "K" (.obj [("id", .str "2@c.us"), ("isUser", .bool false)])).isUser
        = .bool true :=
  ⟨rfl,
    claim_C10_isUser_forced_truthy.2.1 "K"
      (.obj [("id", .str "2@c.us"), ("isUser", .bool false)])
      (Or.inr (Or.inr (Or.inl rfl)))⟩

theorem jsOr_fb (a : Option Json) (b1 b2 : Json) :
    jsOr a b1 = jsOr a b2 ∨ (jsOr a b1 = b1 ∧ jsOr a b2 = b2) := by
  cases a with
  | none => exact Or.inr ⟨rfl, rfl⟩
  | some v =>
    by_cases hv : v.truthy = true
    · exact Or.inl (by simp [jsOr, hv])
    · simp only [Bool.not_eq_true] at hv
      exact Or.inr ⟨by simp [jsOr, hv], by simp [jsOr, hv]⟩

theorem resolveContactId_fb (cd : Json) (fb1 fb2 : Json) :
    resolveContactId cd fb1 = resolveContactId cd fb2
      ∨ (resolveContactId cd fb1 = fb1 ∧ resolveContactId cd fb2 = fb2) := by
  have L : ∀ (a : Option Json) (i1 i2 : Json), (i1 = i2 ∨ (i1 = fb1 ∧ i2 = fb2)) →
      (jsOr a i1 = jsOr a i2 ∨ (jsOr a i1 = fb1 ∧ jsOr a i2 = fb2)) := by
    intro a i1 i2 h
    rcases h with rfl | ⟨h1, h2⟩
    · exact Or.inl rfl
    · rcases jsOr_fb a i1 i2 with h | ⟨g1, g2⟩
      · exact Or.inl h
      · exact Or.inr ⟨h1 ▸ g1, h2 ▸ g2⟩
  unfold resolveContactId
  exact L _ _ _ (L _ _ _ (L _ _ _ (L _ _ _ (Or.inr ⟨rfl, rfl⟩))))

theorem jsString_str (s : String) : jsString (.str s) = s := by
  simp [jsString]

theorem resolveContactId_stable {cd : Json}
    (h : strIncludes (jsString (resolveContactId cd (.str ""))) "@c.us" = true) (u : String) :
    resolveContactId cd (.str u) = resolveContactId cd (.str "") := by
  rcases resolveContactId_fb cd (.str u) (.str "") with he | ⟨h1, h2⟩
  · exact he
  · rw [h2, jsString_str] at h
    exact absurd h (by decide)

theorem filter_map_overwrite (store : List ContactRecord) (cid : String) (F : ContactFields) :
    (store.map (fun r => if r.contactId == cid then { r with fields := F } else r)).filter
        (fun r => r.contactId == cid)
      = (store.filter (fun r => r.contactId == cid)).map
          (fun r => { r with fields := F }) := by
  induction store with
  | nil => rfl
  | cons a l ih =>
    have hM : (if a.contactId == cid then { a with fields := F } else a).contactId
        = a.contactId := by split <;> rfl
    show ((if a.contactId == cid then { a with fields := F } else a)
        :: l.map (fun r => if r.contactId == cid then { r with fields := F } else r)).filter
          (fun r => r.contactId == cid) = _
    rw [List.filter_cons, List.filter_cons, hM]
    by_cases hp : (a.contactId == cid) = true
    · rw [if_pos hp, if_pos hp, if_pos hp, List.map_cons, ih]
    · rw [if_neg hp, if_neg hp, ih]

theorem saveContactStore_filter (dk u : String) (cd : Json) (store : List ContactRecord)
    (hlen : (store.filter
        (fun r => r.contactId == jsString (resolveContactId cd (.str u)))).length ≤ 1) :
    ((saveContactStore dk u cd store).filter
        (fun r => r.contactId == jsString (resolveContactId cd (.str u)))).map
      (fun r => (r.contactId, r.fields))
      = [(jsString (resolveContactId cd (.str u)), contactFieldsOf dk cd)] := by
  simp only [saveContactStore]
  split
  · rename_i r0 hfind
    rw [filter_map_overwrite]
    have hmem : r0 ∈ store := List.mem_of_find?_eq_some hfind
    have hpred : (r0.contactId == jsString (resolveContactId cd (.str u))) = true :=
      List.find?_some
        (p := fun r : ContactRecord => r.contactId == jsString (resolveContactId cd (.str u)))
        hfind
    have hone : (store.filter
        (fun r => r.contactId == jsString (resolveContactId cd (.str u)))).length = 1 := by
      have hge : 0 < (store.filter
          (fun r => r.contactId == jsString (resolveContactId cd (.str u)))).length :=
        List.length_pos.mpr (by
          intro hc
          exact absurd (List.mem_filter.mpr ⟨hmem, hpred⟩) (by rw [hc]; simp))
      omega
    obtain ⟨x, hx⟩ := List.length_eq_one.mp hone
    rw [hx]
    have hxmem : x ∈ store.filter
        (fun r => r.contactId == jsString (resolveContactId cd (.str u))) := by
      rw [hx]; exact List.mem_singleton.mpr rfl
    have hxid : x.contactId = jsString (resolveContactId cd (.str u)) := by
      have := (List.mem_filter.mp hxmem).2
      simpa using this
    simp [hxid]
  · rename_i hfind
    have hnil : store.filter
        (fun r => r.contactId == jsString (resolveContactId cd (.str u))) = [] := by
      rw [List.filter_eq_nil_iff]
      intro a ha
      simpa using List.find?_eq_none.mp hfind a ha
    rw [List.filter_append, hnil]
    simp

theorem saveContactsStore_skip (dk : String) (gen : Nat → String) :
    ∀ (cs : List Json) (i : Nat) (store : List ContactRecord),
    (∀ c ∈ cs, strIncludes (jsString (resolveContactId c (.str ""))) "@c.us" = false) →
    saveContactsStore dk gen i cs store = store := by
  intro cs
  induction cs with
  | nil => intro i store _; rfl
  | cons c cs ih =>
    intro i store h
    have hc := h c (List.mem_cons_self c cs)
    simp only [saveContactsStore, hc, Bool.false_eq_true, if_false]
    exact ih i store (fun x hx => h x (List.mem_cons_of_mem c hx))

theorem saveContactsStore_single (dk : String) (gen : Nat → String) (i : Nat) (c : Json)
    (store : List ContactRecord)
    (h : strIncludes (jsString (resolveContactId c (.str ""))) "@c.us" = true) :
    saveContactsStore dk gen i [c] store = saveContactStore dk (gen i) c store := by
  simp only [saveContactsStore, h, if_true]

/-- C5: bulk contact save persists nothing for a contact whose resolved
identity (`id._serialized || id || contactId || number`) lacks the
`@c.us` individual-user suffix; and for a contact that carries it, bulk
saving the same contact object twice is idempotent by `contactId`:
exactly one row with that identity exists afterwards, holding exactly
the normalized field values of the saved object (full overwrite, no
merge with any previous state). -/
theorem claim_C5_contact_filter_upsert :
    (∀ (dk : String) (gen : Nat → String) (i : Nat) (store : List ContactRecord)
        (cs : List Json),
      (∀ c ∈ cs, strIncludes (jsString (resolveContactId c (.str ""))) "@c.us" = false) →
      saveContactsStore dk gen i cs store = store)
    ∧ (∀ (dk : String) (gen1 gen2 : Nat → String) (i1 i2 : Nat) (c : Json)
        (store : List ContactRecord),
      strIncludes (jsString (resolveContactId c (.str ""))) "@c.us" = true →
      (store.filter
          (fun r => r.contactId == jsString (resolveContactId c (.str "")))).length ≤ 1 →
      ((saveContactsStore dk gen2 i2 [c] (saveContactsStore dk gen1 i1 [c] store)).filter
          (fun r => r.contactId == jsString (resolveContactId c (.str "")))).map
        (fun r => (r.contactId, r.fields))
        = [(jsString (resolveContactId c (.str "")), contactFieldsOf dk c)]) := by
  constructor
  · intro dk gen i store cs h
    exact saveContactsStore_skip dk gen cs i store h
  · intro dk gen1 gen2 i1 i2 c store hinc hlen
    rw [saveContactsStore_single dk gen1 i1 c store hinc]
    rw [saveContactsStore_single dk gen2 i2 c _ hinc]
    have hstab1 := resolveContactId_stable hinc (gen1 i1)
    have hstab2 := resolveContactId_stable hinc (gen2 i2)
    have h1 := saveContactStore_filter dk (gen1 i1) c store (by rw [hstab1]; exact hlen)
    rw [hstab1] at h1
    have hlen1 : ((saveContactStore dk (gen1 i1) c store).filter
        (fun r => r.contactId == jsString (resolveContactId c (.str "")))).length ≤ 1 := by
      have hlenEq := congrArg List.length h1
      rw [List.length_map, List.length_singleton] at hlenEq
      omega
    have h2 := saveContactStore_filter dk (gen2 i2) c
      (saveContactStore dk (gen1 i1) c store) (by rw [hstab2]; exact hlen1)
    rw [hstab2] at h2
    exact h2

/-- Witness for C5: saving the contact `{id: "123@c.us", name: "A"}`
twice into an empty store leaves exactly one row with that identity and
the normalized fields. -/
theorem claim_C5_contact_filter_upsert_witness :
    strIncludes (jsString (resolveContactId
        (.obj [("id", .str "123@c.us"), ("name", .str "A")]) (.str ""))) "@c.us" = true
    ∧ (([] : List ContactRecord).filter
        (fun r => r.contactId == jsString (resolveContactId
          (.obj [("id", .str "123@c.us"), ("name", .str "A")]) (.str "")))).length ≤ 1
    ∧ ((saveContactsStore "K" (fun _ => "g2") 0
          [.obj [("id", .str "123@c.us"), ("name", .str "A")]]
          (saveContactsStore "K" (fun _ => "g1") 0
            [.obj [("id", .str "123@c.us"), ("name", .str "A")]] [])).filter
        (fun r => r.contactId == jsString (resolveContactId
          (.obj [("id", .str "123@c.us"), ("name", .str "A")]) (.str "")))).map
        (fun r => (r.contactId, r.fields))
      = [(jsString (resolveContactId
            (.obj [("id", .str "123@c.us"), ("name", .str "A")]) (.str "")),
          contactFieldsOf "K" (.obj [("id", .str "123@c.us"), ("name", .str "A")]))] :=
  ⟨by rw [show resolveContactId (.obj [("id", .str "123@c.us"), ("name", .str "A")])
        (.str "") = .str "123@c.us" from rfl, jsString_str]; decide,
   by decide,
   claim_C5_contact_filter_upsert.2 "K" (fun _ => "g1") (fun _ => "g2") 0 0
     (.obj [("id", .str "123@c.us"), ("name", .str "A")]) []
     (by rw [show resolveContactId (.obj [("id", .str "123@c.us"), ("name", .str "A")])
        (.str "") = .str "123@c.us" from rfl, jsString_str]; decide)
     (by decide)⟩
